import Mathlib

/-!
# Verification of the gwas_summary_statistics query-and-harmonize engine

Shallow embedding of `src/gwas-summary-statistics-app/src/gwasss.rs`.

Modelling conventions:
* Rust `f32` effect/se/p values are modelled by an abstract scalar `α`
  (instantiated at the exact-decimal type `Decimal` for executable
  stream/query reasoning and at `ℝ` for the numeric flip transform); the
  `f32::ln` / `f32::exp` intrinsics are passed in as function parameters
  `lnF` / `expF` and instantiated with `Real.log` / `Real.exp` where the
  numeric claim requires it.
* A Rust panic (any `unwrap` / `expect` / explicit panic) is modelled by
  a dedicated constructor (`none`, `.panicked`, ...) distinct from both
  normal results and `Err` results.
* Files and subprocess standard output are modelled as `List String` of
  lines; the external tabix subprocess is modelled by a `SpawnOutcome`
  parameter describing how the spawn went (launch failure / exit status
  and produced lines), since the tool itself is outside the repository.
-/

/-- Model of `enum EffectType` from gwasss.rs (lines 21-27). -/
inductive EffectType where
  | Beta
  | OR
  | HR
  | Other
deriving DecidableEq, Repr

/-- Model of `enum CodedAllele` from gwasss.rs (lines 51-55): which element of the
variant's allele pair is currently the coded one. -/
inductive CodedAllele where
  | A1Coded
  | A2Coded
deriving DecidableEq, Repr

/-- Modelled from the spec: `genepa_rs::Variant` is an external crate type.
Per spec §3 it has a name, a chromosome label (`v.chrom.name` in the code is
the chromosome's string label), a 1-based position, and a pair of allele
strings. -/
structure Variant where
  name : String
  chrom : String
  position : Nat
  alleles : String × String
deriving DecidableEq, Repr

/-- Modelled from the spec: equality of `genepa_rs::Variant` (used by
`&stat.variant == v` in `get_stats_for_variant`) is equal chromosome, equal
position, and the allele pair matching order-independently; the name is not
part of equality (spec §3). -/
def Variant.veq (a b : Variant) : Prop :=
  a.chrom = b.chrom ∧ a.position = b.position ∧
    ((a.alleles.1 = b.alleles.1 ∧ a.alleles.2 = b.alleles.2) ∨
     (a.alleles.1 = b.alleles.2 ∧ a.alleles.2 = b.alleles.1))

instance (a b : Variant) : Decidable (a.veq b) := by
  unfold Variant.veq; infer_instance

/-- Model of `struct Component` from gwasss.rs (lines 67-83), restricted to the fields
the query logic reads; the descriptive metadata (population, sex, sample
sizes, URLs) is irrelevant to the claims and omitted. -/
structure Component where
  trait_name : String
  formatted_file : String
  effect_type : EffectType
deriving DecidableEq, Repr

/-- Model of `struct AssociationStat` from gwasss.rs (lines 293-300), polymorphic in
the scalar standing in for `f32`. -/
structure AssociationStat (α : Type) where
  variant : Variant
  coded_allele : CodedAllele
  effect : α
  se : α
  p : α
deriving DecidableEq, Repr

/-- Model of `enum ComponentQueryError` from gwasss.rs (lines 97-102).  Note the three
constructors: there is no separate ambiguity variant. -/
inductive ComponentQueryError where
  | TabixError (msg : String)
  | NotFound (v : Variant) (msg : String)
  | BadInput (msg : String)
deriving DecidableEq, Repr

/-! ## Numeric string parsing

The code parses the position with `parse::<u32>().unwrap()` via type
inference and the effect/se/p columns with `parse::<f32>().unwrap()`.  The
models below follow Rust's grammar for plain decimal and scientific literals
(optional sign, digits with an optional fractional part, optional `e`/`E`
exponent), returning `none` on malformed text; `f32` rounding is abstracted
away: the parsed value is kept exactly, as a signed mantissa together with a
power-of-ten denominator exponent.  The special spellings (`inf`, `NaN`)
are out of scope for the claims. -/

/-- Exact decimal value `num / 10 ^ exp10`, the model of a parsed `f32`
column.  Structural, so the kernel can decide equalities of parsed
records. -/
structure Decimal where
  num : Int
  exp10 : Nat
deriving DecidableEq, Repr

instance : Neg Decimal := ⟨fun d => ⟨-d.num, d.exp10⟩⟩

/-- Rational value denoted by a `Decimal`. -/
def Decimal.toRat (d : Decimal) : ℚ :=
  (d.num : ℚ) / 10 ^ d.exp10

/-- Split a character list on a separator character; mirrors Rust's
`str::split` on a `char` pattern (an empty input gives one empty field).
Implemented structurally so the kernel can evaluate it. -/
def splitChar (sep : Char) : List Char → List (List Char)
  | [] => [[]]
  | c :: cs =>
    match splitChar sep cs with
    | [] => [[]]
    | f :: rest => if c = sep then [] :: f :: rest else (c :: f) :: rest

/-- Kernel-evaluable model of `str::to_uppercase` (ASCII nucleotide codes). -/
def strToUpper (s : String) : String :=
  String.mk (s.toList.map Char.toUpper)

/-- Numeric value of a digit list, assuming all characters are digits. -/
def digitsVal (cs : List Char) : Nat :=
  cs.foldl (fun acc c => acc * 10 + (c.toNat - '0'.toNat)) 0

/-- Whether every character in the list is a decimal digit. -/
def allDigits (cs : List Char) : Bool :=
  cs.all (fun c => c.isDigit)

/-- Model of `str::parse` for an unsigned integer (the position column):
digits only, at least one. -/
def parsePos (s : String) : Option Nat :=
  if s.toList.length ≠ 0 ∧ allDigits s.toList then some (digitsVal s.toList)
  else none

/-- Mantissa of a decimal literal: `digits`, `digits.digits`, `digits.` or
`.digits` (at least one digit overall); the fractional digits go into the
power-of-ten denominator. -/
def parseMantissa (cs : List Char) : Option Decimal :=
  match splitChar '.' cs with
  | [a] =>
    if a.length ≠ 0 ∧ allDigits a then some ⟨(digitsVal a : Int), 0⟩
    else none
  | [a, b] =>
    if (a.length ≠ 0 ∨ b.length ≠ 0) ∧ allDigits a ∧ allDigits b then
      some ⟨(digitsVal a * 10 ^ b.length + digitsVal b : Nat), b.length⟩
    else none
  | _ => none

/-- Split a character list at the first `e`/`E`, when present. -/
def splitExp : List Char → List Char × Option (List Char)
  | [] => ([], none)
  | c :: cs =>
    if c = 'e' ∨ c = 'E' then ([], some cs)
    else
      let r := splitExp cs
      (c :: r.1, r.2)

/-- Exponent part of a scientific literal: optional sign then digits. -/
def parseExp (cs : List Char) : Option ℤ :=
  match cs with
  | '-' :: rest =>
    if rest.length ≠ 0 ∧ allDigits rest then some (-(digitsVal rest : ℤ)) else none
  | '+' :: rest =>
    if rest.length ≠ 0 ∧ allDigits rest then some (digitsVal rest : ℤ) else none
  | rest =>
    if rest.length ≠ 0 ∧ allDigits rest then some (digitsVal rest : ℤ) else none

/-- Scale a decimal by a signed power of ten (the scientific exponent). -/
def Decimal.scale10 (d : Decimal) : ℤ → Decimal
  | .ofNat n => ⟨d.num * 10 ^ n, d.exp10⟩
  | .negSucc n => ⟨d.num, d.exp10 + (n + 1)⟩

/-- Unsigned decimal or scientific literal. -/
def parseUnsigned (cs : List Char) : Option Decimal :=
  let r := splitExp cs
  match r.2 with
  | none => parseMantissa r.1
  | some ecs => do
    let m ← parseMantissa r.1
    let e ← parseExp ecs
    some (m.scale10 e)

/-- Model of `str::parse::<f32>` on a numeric column. -/
def parseF (s : String) : Option Decimal :=
  match s.toList with
  | '-' :: rest => (parseUnsigned rest).map (fun q => -q)
  | '+' :: rest => parseUnsigned rest
  | cs => parseUnsigned cs

/-! ## Line parsing and the record stream -/

/-- Model of `_split_line_to_variant` / `_split_line_to_variant_using_idx` combined
with the numeric-column handling of `<SummaryStatsFile as Iterator>::next`
(gwasss.rs lines 183-213 and 269-289): split on tabs, build the variant from
columns 0-4 (alleles uppercased; the coded slot is `A1Coded` exactly when
the uppercased column 4 equals the variant's first allele, else `A2Coded`),
and parse columns 5-7 as the effect, standard error, and p-value.  Every
`unwrap` and out-of-bounds index in the original panics; here any of those
yields `none`. -/
def parseLine (line : String) : Option (AssociationStat Decimal) := do
  let fields := (splitChar '\t' line.toList).map String.mk
  let name ← fields.get? 0
  let chrom ← fields.get? 1
  let posStr ← fields.get? 2
  let a1raw ← fields.get? 3
  let a2raw ← fields.get? 4
  let effStr ← fields.get? 5
  let seStr ← fields.get? 6
  let pStr ← fields.get? 7
  let pos ← parsePos posStr
  let reference_allele := strToUpper a1raw
  let coded_allele := strToUpper a2raw
  let v : Variant := ⟨name, chrom, pos, (reference_allele, coded_allele)⟩
  let code := if coded_allele = v.alleles.1 then CodedAllele.A1Coded
              else CodedAllele.A2Coded
  let effect ← parseF effStr
  let se ← parseF seStr
  let p ← parseF pStr
  some ⟨v, code, effect, se, p⟩

/-- Model of `struct SummaryStatsFile` (gwasss.rs lines 216-218): the boxed line
iterator is modelled by the list of lines remaining to be read. -/
structure SummaryStatsFile where
  lines : List String
deriving DecidableEq, Repr

/-- Outcome of one `next()` call on the stream.  The yielded item keeps the
source's `Result<AssociationStat, Box<str>>` shape (`Except String _`);
`panicked` models the `unwrap` panics inside `next`. -/
inductive NextResult where
  | done
  | panicked
  | yielded (item : Except String (AssociationStat Decimal)) (rest : SummaryStatsFile)
deriving Repr

/-- Model of the iterator method `next` for `SummaryStatsFile` (gwasss.rs lines 266-290): take
the next line; a line that fails to split/parse panics (the `Err` arm of the
item type is never constructed by the source). -/
def SummaryStatsFile.next (f : SummaryStatsFile) : NextResult :=
  match f.lines with
  | [] => .done
  | l :: rest =>
    match parseLine l with
    | some s => .yielded (.ok s) ⟨rest⟩
    | none => .panicked

/-- Result of draining a stream to the end: the records yielded so far, and
whether iteration finished normally or died in a panic. -/
inductive DrainResult where
  | ok (stats : List (AssociationStat Decimal))
  | panicked (statsSoFar : List (AssociationStat Decimal))
deriving DecidableEq, Repr

/-- Drain a list of lines through the iterator, line by line, in order. -/
def drainLines : List String → DrainResult
  | [] => .ok []
  | l :: ls =>
    match parseLine l with
    | none => .panicked []
    | some s =>
      match drainLines ls with
      | .ok xs => .ok (s :: xs)
      | .panicked xs => .panicked (s :: xs)

/-- Drain a whole stream. -/
def SummaryStatsFile.drain (f : SummaryStatsFile) : DrainResult :=
  drainLines f.lines

/-- Outcome of `SummaryStatsFile::tabix` construction.  `panicked` models the
`.expect("Tabix failed")` on a spawn error. -/
inductive TabixResult where
  | panicked
  | error (msg : String)
  | ok (f : SummaryStatsFile)
deriving DecidableEq, Repr

/-- How spawning the external `tabix` subprocess went: the launch itself can
fail, or the process runs to completion with an exit status and some lines
on its standard output. -/
inductive SpawnOutcome where
  | launchFail
  | ran (exitSuccess : Bool) (stdoutLines : List String)
deriving DecidableEq, Repr

/-- Model of `SummaryStatsFile::tabix` (gwasss.rs lines 222-248): a spawn failure
panics via `expect`; a nonzero exit status is an `Err` naming the file; on
success the stream is built over the subprocess's standard output.  The
region string is passed to the external process and does not influence the
modelled control flow. -/
def SummaryStatsFile.tabix (spawn : SpawnOutcome) (filename : String)
    (region : String) : TabixResult :=
  match spawn with
  | .launchFail => .panicked
  | .ran exitSuccess stdoutLines =>
    if !exitSuccess then
      .error ("Tabix exited with an error; does '" ++ filename ++ "' exist?")
    else
      .ok ⟨stdoutLines⟩

/-- Model of `SummaryStatsFile::read_file` (gwasss.rs lines 250-263): read the file's
lines and skip the first one (the assumed header).  The `File::open` panic
on a missing file is outside the claims; the model receives the opened
file's lines. -/
def SummaryStatsFile.read_file (fileLines : List String) : SummaryStatsFile :=
  ⟨fileLines.drop 1⟩

/-! ## Allele harmonizer -/

/-- Model of `AssociationStat::get_coded_allele` (gwasss.rs lines 311-316):
resolve the coded-allele slot against the variant's allele pair. -/
def AssociationStat.get_coded_allele {α : Type} (s : AssociationStat α) : String :=
  match s.coded_allele with
  | .A1Coded => s.variant.alleles.1
  | .A2Coded => s.variant.alleles.2

/-- Model of `AssociationStat::get_reference_allele` (gwasss.rs lines
304-309): the non-coded allele. -/
def AssociationStat.get_reference_allele {α : Type} (s : AssociationStat α) : String :=
  match s.coded_allele with
  | .A1Coded => s.variant.alleles.2
  | .A2Coded => s.variant.alleles.1

/-- Toggling of the coded-allele slot done at the end of
`flip_coded_allele` (gwasss.rs lines 330-333). -/
def toggleCoded : CodedAllele → CodedAllele
  | .A1Coded => .A2Coded
  | .A2Coded => .A1Coded

/-- Model of `AssociationStat::flip_coded_allele` (gwasss.rs lines 318-334).
`lnF` and `expF` stand for the `f32::ln` / `f32::exp` intrinsics.  For `OR`
and `HR` the code computes `beta = -effect.ln()` and stores `beta.exp()`;
for `Beta` it negates; for `Other` it panics (modelled as `none`). -/
def AssociationStat.flip_coded_allele {α : Type} [Neg α] (lnF expF : α → α)
    (effect_type : EffectType) (s : AssociationStat α) :
    Option (AssociationStat α) :=
  match effect_type with
  | .OR | .HR =>
    some { s with effect := expF (-(lnF s.effect)),
                  coded_allele := toggleCoded s.coded_allele }
  | .Beta =>
    some { s with effect := -s.effect,
                  coded_allele := toggleCoded s.coded_allele }
  | .Other => none

/-- The harmonization step inlined in `Component::get_stats_for_variant`
(gwasss.rs lines 153-161): resolve the record's current coded allele; if it
differs from the requested one, flip, otherwise return the record
unchanged. -/
def harmonize {α : Type} [Neg α] (lnF expF : α → α) (effect_type : EffectType)
    (coded_allele : String) (s : AssociationStat α) :
    Option (AssociationStat α) :=
  if s.get_coded_allele ≠ coded_allele then
    s.flip_coded_allele lnF expF effect_type
  else
    some s

/-! ## Variant query façade -/

/-- Outcome of `Component::get_stats_for_variant`: a panic (from a parse
`unwrap`, the tabix spawn `expect`, or the `Other`-effect-type flip), an
`Err(ComponentQueryError)`, or a harmonized record. -/
inductive QueryResult where
  | panicked
  | error (e : ComponentQueryError)
  | ok (s : AssociationStat Decimal)
deriving DecidableEq, Repr

/-- The drain-and-filter step of `Component::get_stats_for_variant`
(gwasss.rs lines 131-142): collect into a vector the parsed records whose
variant equals the queried one; a line whose parse panics aborts the whole
collection (the `Err(_) => None` arm of the source's `filter_map` is dead
code, since the iterator never yields `Err`). -/
def collectMatches (v : Variant) : List String → Except Unit (List (AssociationStat Decimal))
  | [] => .ok []
  | l :: ls =>
    match parseLine l with
    | none => .error ()
    | some s =>
      match collectMatches v ls with
      | .error e => .error e
      | .ok ms => .ok (if s.variant.veq v then s :: ms else ms)

/-- Model of `Component::get_stats_for_variant` (gwasss.rs lines 110-173).
The external tabix subprocess's behaviour is supplied as `spawn`.  Control
flow: reject a requested coded allele that is neither of the variant's
alleles (`BadInput`); build the single-position region string; run tabix
(spawn failure panics, nonzero exit becomes `TabixError`); collect matching
records; zero matches is `NotFound`, one match is harmonized (`vec.pop()`
on a one-element vector yields that element), and several matches produce
the multiple-entries `NotFound` error. -/
def Component.get_stats_for_variant (lnF expF : Decimal → Decimal) (c : Component)
    (spawn : SpawnOutcome) (v : Variant) (coded_allele : String) : QueryResult :=
  if coded_allele ≠ v.alleles.1 ∧ coded_allele ≠ v.alleles.2 then
    .error (.BadInput "Provided coded allele is not an allele of the variant.")
  else
    let region := v.chrom ++ ":" ++ toString v.position ++ "-" ++ toString v.position
    match SummaryStatsFile.tabix spawn c.formatted_file region with
    | .panicked => .panicked
    | .error e => .error (.TabixError e)
    | .ok ssf =>
      match collectMatches v ssf.lines with
      | .error _ => .panicked
      | .ok vec =>
        match vec with
        | [] => .error (.NotFound v "Could not find variant in statistics file.")
        | [stat] =>
          match harmonize lnF expF c.effect_type coded_allele stat with
          | some s => .ok s
          | none => .panicked
        | _ => .error (.NotFound v
            "Variant has multiple entries in the summary statistics file")

/-! ## Helper predicates used by counterexamples -/

/-- Whether a tabix construction outcome is an error result. -/
def TabixResult.isError : TabixResult → Bool
  | .error _ => true
  | _ => false

/-- Whether a stream step yielded an item. -/
def NextResult.isYield : NextResult → Bool
  | .yielded _ _ => true
  | _ => false

/-! ## Theorems about the harmonizer -/

/-- C4 (confirmed): the flip operation transforms the effect exactly as
specified: for `Beta` the new effect is the negation of the old one, and
for `OR` and `HR` it is `exp(-ln(effect))` computed via the
log/negate/exp path, which for a positive stored ratio equals its
reciprocal. -/
theorem flip_effect_transform (s : AssociationStat ℝ) (h : 0 < s.effect) :
    (s.flip_coded_allele Real.log Real.exp .Beta).map (fun t => t.effect)
      = some (-s.effect) ∧
    (s.flip_coded_allele Real.log Real.exp .OR).map (fun t => t.effect)
      = some (Real.exp (-Real.log s.effect)) ∧
    (s.flip_coded_allele Real.log Real.exp .HR).map (fun t => t.effect)
      = some (Real.exp (-Real.log s.effect)) ∧
    Real.exp (-Real.log s.effect) = (s.effect)⁻¹ := by
  refine ⟨rfl, rfl, rfl, ?_⟩
  rw [Real.exp_neg, Real.exp_log h]

/-- Concrete record used to witness the flip-transform theorem. -/
def c4Stat : AssociationStat ℝ :=
  ⟨⟨"rs1", "1", 100, ("A", "C")⟩, .A1Coded, 2, 1, 1⟩

theorem flip_effect_transform_witness :
    Real.exp (-Real.log c4Stat.effect) = (2 : ℝ)⁻¹ :=
  (flip_effect_transform c4Stat zero_lt_two).2.2.2

/-- C5 (confirmed): flipping a record whose component has effect type
`Other` is fatal (modelled by `none`, the panic outcome); in particular it
never returns any record, unflipped or otherwise. -/
theorem flip_other_is_fatal {α : Type} [Neg α] (lnF expF : α → α)
    (s : AssociationStat α) :
    s.flip_coded_allele lnF expF EffectType.Other = none ∧
    ∀ s' : AssociationStat α,
      s.flip_coded_allele lnF expF EffectType.Other ≠ some s' := by
  refine ⟨rfl, ?_⟩
  intro s' h
  exact Option.noConfusion h

/-- C10 (confirmed): for effect types `Beta`, `OR` and `HR`, flipping
changes only the effect and the coded-allele slot: the variant (name,
chromosome, position and both alleles), the standard error and the p-value
are untouched. -/
theorem flip_preserves_frame {α : Type} [Neg α] (lnF expF : α → α)
    (s : AssociationStat α) :
    (s.flip_coded_allele lnF expF .Beta).map (fun t => (t.variant, t.se, t.p))
      = some (s.variant, s.se, s.p) ∧
    (s.flip_coded_allele lnF expF .OR).map (fun t => (t.variant, t.se, t.p))
      = some (s.variant, s.se, s.p) ∧
    (s.flip_coded_allele lnF expF .HR).map (fun t => (t.variant, t.se, t.p))
      = some (s.variant, s.se, s.p) :=
  ⟨rfl, rfl, rfl⟩

/-- C8 (confirmed): harmonizing a record to its own current coded allele
(resolved through the coded-allele slot) is a no-op: the very same record
is returned, all fields included. -/
theorem harmonize_own_coded_noop {α : Type} [Neg α] (lnF expF : α → α)
    (et : EffectType) (r : AssociationStat α) :
    harmonize lnF expF et r.get_coded_allele r = some r := by
  unfold harmonize
  simp

/-! ## Theorems about stream construction and iteration -/

/-- C6 counterexample: on a subprocess launch failure the construction
panics (the `expect` on `spawn()`) instead of producing any error result
identifying the file, refuting the claim that every retrieval failure,
launch failure included, surfaces as a RetrievalError-class result. -/
theorem tabix_launch_failure_panics :
    SummaryStatsFile.tabix SpawnOutcome.launchFail "stats.tsv.gz" "1:100-100"
      = TabixResult.panicked ∧
    (SummaryStatsFile.tabix SpawnOutcome.launchFail "stats.tsv.gz"
      "1:100-100").isError = false :=
  ⟨rfl, rfl⟩

/-- C6 (corrected): a nonzero exit of the retrieval subprocess (the missing
file / missing index cases) makes stream construction fail, before any
record is yielded, with an error naming the file — never an empty stream;
but a launch failure of the subprocess panics instead of returning an
error result. -/
theorem tabix_failure_behavior (filename region : String) (lines : List String) :
    SummaryStatsFile.tabix (.ran false lines) filename region
      = .error ("Tabix exited with an error; does '" ++ filename ++ "' exist?") ∧
    SummaryStatsFile.tabix .launchFail filename region = .panicked :=
  ⟨rfl, rfl⟩

/-- C2 counterexample: a line with a malformed numeric field does not yield
a per-line parse error; the `unwrap` in `next` panics and the subsequent
valid line is never reached. -/
theorem next_malformed_line_aborts :
    SummaryStatsFile.next
        ⟨["rs1\t1\t100\tA\tC\tnotanum\t0.1\t0.5",
          "rs2\t1\t101\tA\tC\t0.5\t0.1\t0.5"]⟩
      = NextResult.panicked ∧
    (SummaryStatsFile.next
        ⟨["rs1\t1\t100\tA\tC\tnotanum\t0.1\t0.5",
          "rs2\t1\t101\tA\tC\t0.5\t0.1\t0.5"]⟩).isYield = false := by
  refine ⟨?_, ?_⟩ <;> rfl

/-- C2 (corrected): a malformed numeric field, a missing column, or a
non-numeric position makes the iterator panic, aborting the whole stream;
the per-line `Err` channel of the yielded `Result` item type is never
used — every yielded item is `Ok`. -/
theorem stream_parse_failure_behavior :
    (∀ (l : String) (rest : List String), parseLine l = none →
      SummaryStatsFile.next ⟨l :: rest⟩ = NextResult.panicked) ∧
    (∀ (f : SummaryStatsFile) (item : Except String (AssociationStat Decimal))
        (rest : SummaryStatsFile),
      f.next = NextResult.yielded item rest →
      ∃ s, item = Except.ok s) := by
  constructor
  · intro l rest h
    simp [SummaryStatsFile.next, h]
  · intro f item rest h
    unfold SummaryStatsFile.next at h
    rcases f with ⟨lines⟩
    cases lines with
    | nil => exact NextResult.noConfusion h
    | cons l ls =>
      simp only at h
      cases hp : parseLine l with
      | none => rw [hp] at h; exact NextResult.noConfusion h
      | some s =>
        rw [hp] at h
        rcases NextResult.yielded.inj h with ⟨h1, _⟩
        exact ⟨s, h1.symm⟩

theorem stream_parse_failure_behavior_witness :
    SummaryStatsFile.next ⟨["rs1\t1\t100\tA\tC\tnotanum\t0.1\t0.5"]⟩
      = NextResult.panicked :=
  stream_parse_failure_behavior.1 "rs1\t1\t100\tA\tC\tnotanum\t0.1\t0.5" []
    (by decide)

/-- Draining a list of lines whose every line parses yields exactly the
parsed records, in order. -/
theorem drainLines_eq_of_mapM (lines : List String)
    (parsed : List (AssociationStat Decimal))
    (h : lines.mapM parseLine = some parsed) :
    drainLines lines = .ok parsed := by
  induction lines generalizing parsed with
  | nil =>
    simp only [List.mapM_nil, pure, Option.some.injEq] at h
    subst h; rfl
  | cons l ls ih =>
    rw [List.mapM_cons] at h
    cases hp : parseLine l with
    | none => rw [hp] at h; simp at h
    | some s =>
      rw [hp] at h
      cases hm : ls.mapM parseLine with
      | none => rw [hm] at h; simp at h
      | some ps =>
        rw [hm] at h
        simp only [Option.bind_eq_bind, Option.some_bind, Option.pure_def,
          Option.some.injEq] at h
        subst h
        simp only [drainLines, hp, ih ps hm]

/-- C9 (confirmed): whole-file-mode construction discards exactly the first
line (the assumed header) and yields the parsed records of lines 2 onward
in order; a file with only a header line, or no lines, gives an empty
stream. -/
theorem read_file_skips_header (ls : List String) :
    (SummaryStatsFile.read_file ls).lines = ls.drop 1 ∧
    (∀ parsed, (ls.drop 1).mapM parseLine = some parsed →
      (SummaryStatsFile.read_file ls).drain = .ok parsed) ∧
    (ls.length ≤ 1 → (SummaryStatsFile.read_file ls).drain = .ok []) := by
  refine ⟨rfl, ?_, ?_⟩
  · intro parsed h
    exact drainLines_eq_of_mapM _ _ h
  · intro h
    have hd : ls.drop 1 = [] := List.drop_eq_nil_of_le h
    show drainLines (ls.drop 1) = .ok []
    rw [hd]
    rfl

theorem read_file_skips_header_witness :
    (SummaryStatsFile.read_file
        ["name\tchrom\tpos\ta1\ta2\teffect\tse\tp",
         "rs1\t3\t12345\tG\tC\t0.5\t0.1\t0.02"]).drain
      = .ok [⟨⟨"rs1", "3", 12345, ("G", "C")⟩, .A2Coded, ⟨5, 1⟩, ⟨1, 1⟩, ⟨2, 2⟩⟩] ∧
    (SummaryStatsFile.read_file
        ["name\tchrom\tpos\ta1\ta2\teffect\tse\tp"]).drain = .ok [] :=
  ⟨(read_file_skips_header _).2.1 _ (by decide),
   (read_file_skips_header _).2.2 (by decide)⟩

/-! ## Theorems about the single-variant query -/

/-- C7 (confirmed): a requested coded allele that is neither of the
variant's two alleles yields `BadInput`, whatever the file and however the
retrieval subprocess would have behaved (the file is never consulted: the
outcome is the same for every spawn behaviour). -/
theorem query_bad_allele (lnF expF : Decimal → Decimal) (c : Component)
    (spawn : SpawnOutcome) (v : Variant) (ca : String)
    (h1 : ca ≠ v.alleles.1) (h2 : ca ≠ v.alleles.2) :
    Component.get_stats_for_variant lnF expF c spawn v ca
      = .error (.BadInput "Provided coded allele is not an allele of the variant.") := by
  unfold Component.get_stats_for_variant
  rw [if_pos ⟨h1, h2⟩]

theorem query_bad_allele_witness :
    Component.get_stats_for_variant id id ⟨"cad", "stats.tsv.gz", .Beta⟩
        SpawnOutcome.launchFail ⟨"rsX", "3", 12345, ("G", "C")⟩ "T"
      = .error (.BadInput "Provided coded allele is not an allele of the variant.") :=
  query_bad_allele id id ⟨"cad", "stats.tsv.gz", .Beta⟩ SpawnOutcome.launchFail
    ⟨"rsX", "3", 12345, ("G", "C")⟩ "T" (by decide) (by decide)

/-- Resolution of the coded-allele slot when the slot is `A1Coded`. -/
theorem get_coded_allele_A1 {α : Type} (s : AssociationStat α)
    (h : s.coded_allele = .A1Coded) :
    s.get_coded_allele = s.variant.alleles.1 := by
  unfold AssociationStat.get_coded_allele
  rw [h]

/-- Resolution of the coded-allele slot when the slot is `A2Coded`. -/
theorem get_coded_allele_A2 {α : Type} (s : AssociationStat α)
    (h : s.coded_allele = .A2Coded) :
    s.get_coded_allele = s.variant.alleles.2 := by
  unfold AssociationStat.get_coded_allele
  rw [h]

/-- After toggling the coded-allele slot, the resolved coded allele is the
requested one, provided the requested allele is one of the record's two
alleles and differed from the pre-toggle coded allele. -/
theorem toggled_get_coded {α : Type} (s : AssociationStat α) (eff : α)
    (ca : String)
    (hca : ca = s.variant.alleles.1 ∨ ca = s.variant.alleles.2)
    (hne : s.get_coded_allele ≠ ca) :
    (AssociationStat.mk s.variant (toggleCoded s.coded_allele) eff s.se
      s.p).get_coded_allele = ca := by
  cases hs : s.coded_allele with
  | A1Coded =>
    simp only [AssociationStat.get_coded_allele, hs, toggleCoded]
    rcases hca with h | h
    · rw [get_coded_allele_A1 s hs] at hne
      exact absurd h.symm hne
    · exact h.symm
  | A2Coded =>
    simp only [AssociationStat.get_coded_allele, hs, toggleCoded]
    rcases hca with h | h
    · exact h.symm
    · rw [get_coded_allele_A2 s hs] at hne
      exact absurd h.symm hne

/-- A successful harmonization resolves the record's coded allele to the
requested one (whether or not a flip was applied). -/
theorem harmonize_some_coded {α : Type} [Neg α] (lnF expF : α → α)
    (et : EffectType) (ca : String) (s s' : AssociationStat α)
    (hca : ca = s.variant.alleles.1 ∨ ca = s.variant.alleles.2)
    (h : harmonize lnF expF et ca s = some s') :
    s'.get_coded_allele = ca := by
  unfold harmonize at h
  split at h
  case isTrue hne =>
    unfold AssociationStat.flip_coded_allele at h
    cases et with
    | Other => exact Option.noConfusion h
    | Beta =>
      have h' := Option.some.inj h
      subst h'
      exact toggled_get_coded s _ ca hca hne
    | OR =>
      have h' := Option.some.inj h
      subst h'
      exact toggled_get_coded s _ ca hca hne
    | HR =>
      have h' := Option.some.inj h
      subst h'
      exact toggled_get_coded s _ ca hca hne
  case isFalse hne =>
    have h' := Option.some.inj h
    subst h'
    exact not_not.mp hne

/-- Every record collected by the drain-and-filter step matches the queried
variant. -/
theorem collectMatches_ok_veq (v : Variant) (lines : List String)
    (ms : List (AssociationStat Decimal))
    (h : collectMatches v lines = .ok ms) :
    ∀ m ∈ ms, m.variant.veq v := by
  induction lines generalizing ms with
  | nil =>
    have h' := Except.ok.inj h
    subst h'
    intro m hm
    exact absurd hm (List.not_mem_nil m)
  | cons l ls ih =>
    unfold collectMatches at h
    cases hp : parseLine l with
    | none => rw [hp] at h; exact Except.noConfusion h
    | some s =>
      rw [hp] at h
      cases hcm : collectMatches v ls with
      | error e => rw [hcm] at h; exact Except.noConfusion h
      | ok ms' =>
        rw [hcm] at h
        have h' := Except.ok.inj h
        by_cases hv : s.variant.veq v
        · rw [if_pos hv] at h'
          subst h'
          intro m hm
          rcases List.mem_cons.mp hm with rfl | hm'
          · exact hv
          · exact ih ms' hcm m hm'
        · rw [if_neg hv] at h'
          subst h'
          exact ih ms' hcm

/-- C3 (confirmed): whenever the single-variant query succeeds for a
component whose effect type is `Beta`, `OR` or `HR` and a requested coded
allele that is one of the variant's two alleles, the returned record's
coded allele — resolved through its slot against the record's own allele
pair — equals the requested coded allele, whether or not a flip was
applied. -/
theorem query_coded_allele_postcondition (lnF expF : Decimal → Decimal)
    (c : Component) (spawn : SpawnOutcome) (v : Variant) (ca : String)
    (stat : AssociationStat Decimal)
    (het : c.effect_type = .Beta ∨ c.effect_type = .OR ∨ c.effect_type = .HR)
    (hca : ca = v.alleles.1 ∨ ca = v.alleles.2)
    (hok : Component.get_stats_for_variant lnF expF c spawn v ca
      = QueryResult.ok stat) :
    stat.get_coded_allele = ca := by
  unfold Component.get_stats_for_variant at hok
  split at hok
  · exact QueryResult.noConfusion hok
  · dsimp only [] at hok
    split at hok
    · exact QueryResult.noConfusion hok
    · exact QueryResult.noConfusion hok
    · rename_i ssf htbx
      split at hok
      · exact QueryResult.noConfusion hok
      · rename_i vec hcm
        split at hok
        · exact QueryResult.noConfusion hok
        · rename_i m
          split at hok
          · rename_i s hh
            have hs := QueryResult.ok.inj hok
            subst hs
            have hveq := collectMatches_ok_veq v ssf.lines [m] hcm m
              (List.mem_singleton_self m)
            have hca' : ca = m.variant.alleles.1 ∨ ca = m.variant.alleles.2 := by
              rcases hveq with ⟨-, -, ⟨h1, h2⟩ | ⟨h1, h2⟩⟩ <;> rcases hca with h | h
              · exact Or.inl (h.trans h1.symm)
              · exact Or.inr (h.trans h2.symm)
              · exact Or.inr (h.trans h2.symm)
              · exact Or.inl (h.trans h1.symm)
            exact harmonize_some_coded lnF expF c.effect_type ca m s hca' hh
          · exact QueryResult.noConfusion hok
        · exact QueryResult.noConfusion hok

/-- Concrete component for the query witnesses. -/
def wComponent : Component := ⟨"cad", "stats.tsv.gz", .Beta⟩

/-- Concrete queried variant for the query witnesses. -/
def wVariant : Variant := ⟨"rsX", "3", 12345, ("G", "C")⟩

/-- A summary-statistics line matching `wVariant`, coded allele C. -/
def wLine1 : String := "rs1\t3\t12345\tG\tC\t0.5\t0.1\t0.02"

/-- A second line matching `wVariant` (alleles in swapped order). -/
def wLine2 : String := "rs2\t3\t12345\tC\tG\t0.7\t0.1\t0.02"

/-- The record parsed from `wLine1`, after the G-requested flip. -/
def wFlipped : AssociationStat Decimal :=
  ⟨⟨"rs1", "3", 12345, ("G", "C")⟩, .A1Coded, ⟨-5, 1⟩, ⟨1, 1⟩, ⟨2, 2⟩⟩

theorem query_coded_allele_postcondition_witness :
    wFlipped.get_coded_allele = "G" :=
  query_coded_allele_postcondition id id wComponent
    (.ran true [wLine1]) wVariant "G" wFlipped
    (Or.inl rfl) (Or.inl rfl) (by decide)

/-- C1 counterexample: on a file with two records matching the queried
variant, the query does not return a distinct AmbiguousMatch error: it
returns the same `NotFound` constructor used for the zero-match case,
carrying the variant and a message string (not the file). -/
theorem multiple_matches_error_is_notfound :
    Component.get_stats_for_variant id id wComponent
        (.ran true [wLine1, wLine2]) wVariant "G"
      = .error (.NotFound wVariant
          "Variant has multiple entries in the summary statistics file") ∧
    Component.get_stats_for_variant id id wComponent
        (.ran true []) wVariant "G"
      = .error (.NotFound wVariant
          "Could not find variant in statistics file.") := by
  refine ⟨?_, ?_⟩ <;> decide

/-- C1 (corrected): when the drained stream contains at least two records
matching the queried variant, the query returns an error — it never
resolves the ambiguity by returning one of the records — but the error is
the `NotFound` variant carrying the variant and the message about multiple
entries (there is no distinct AmbiguousMatch variant and the file is not
carried). -/
theorem query_multiple_matches (lnF expF : Decimal → Decimal) (c : Component)
    (v : Variant) (ca : String) (lines : List String)
    (a b : AssociationStat Decimal) (rest : List (AssociationStat Decimal))
    (hca : ca = v.alleles.1 ∨ ca = v.alleles.2)
    (hcm : collectMatches v lines = .ok (a :: b :: rest)) :
    Component.get_stats_for_variant lnF expF c (.ran true lines) v ca
      = .error (.NotFound v
          "Variant has multiple entries in the summary statistics file") := by
  have hnot : ¬(ca ≠ v.alleles.1 ∧ ca ≠ v.alleles.2) := by
    rintro ⟨h1, h2⟩
    rcases hca with h | h
    · exact h1 h
    · exact h2 h
  unfold Component.get_stats_for_variant
  rw [if_neg hnot]
  have htbx : SummaryStatsFile.tabix (SpawnOutcome.ran true lines)
      c.formatted_file
      (v.chrom ++ ":" ++ toString v.position ++ "-" ++ toString v.position)
    = .ok ⟨lines⟩ := rfl
  dsimp only []
  rw [htbx]
  dsimp only []
  rw [hcm]

/-- The record parsed from `wLine1` in file-native orientation. -/
def wStat1 : AssociationStat Decimal :=
  ⟨⟨"rs1", "3", 12345, ("G", "C")⟩, .A2Coded, ⟨5, 1⟩, ⟨1, 1⟩, ⟨2, 2⟩⟩

/-- The record parsed from `wLine2` in file-native orientation. -/
def wStat2 : AssociationStat Decimal :=
  ⟨⟨"rs2", "3", 12345, ("C", "G")⟩, .A2Coded, ⟨7, 1⟩, ⟨1, 1⟩, ⟨2, 2⟩⟩

theorem query_multiple_matches_witness :
    Component.get_stats_for_variant id id wComponent
        (.ran true [wLine1, wLine2]) wVariant "G"
      = .error (.NotFound wVariant
          "Variant has multiple entries in the summary statistics file") :=
  query_multiple_matches id id wComponent wVariant "G" [wLine1, wLine2]
    wStat1 wStat2 [] (Or.inl rfl) (by rfl)
